import Mathlib

/-!
# Push-notification wiring of the todo application

A shallow embedding of `src/push.js` (the subscription registrar and its
base64url key decoder) and of `src/web/push-sw.js` (the push service worker),
followed by the properties established about them.

Conventions of the embedding:

* a JavaScript string that is inspected character by character is a list of
  UTF-16 code units (`JSString`); strings that are only passed around are
  Lean strings;
* an operation that can throw, or an awaited promise that can reject, returns
  `Except JSError _`;
* calls into the browser platform are answered by an explicit environment
  record, and every call made is appended to a trace, so that "is called",
  "is not called" and "is called once" are statements about that trace.
-/

namespace TodoPush

/-! ## Strings and errors -/

/-- A JavaScript string as its sequence of UTF-16 code units. -/
abbrev JSString := List Nat

/-- The code units of a string literal (all literals used here are in the basic plane). -/
def jsString (s : String) : JSString := s.toList.map Char.toNat

/-- An error object, as thrown by the platform: its `name` and its `message`. -/
structure JSError where
  name : String
  message : String
deriving DecidableEq, Repr

/-- The JavaScript conversion `String(e)` of an error object (`Error.prototype.toString`). -/
def JSError.toText (e : JSError) : String :=
  if e.name = "" then e.message
  else if e.message = "" then e.name
  else e.name ++ ": " ++ e.message

/-! ## `atob`: the platform's forgiving base64 decoder -/

/-- The standard base64 alphabet (RFC 4648, table 1): position = 6-bit value. -/
def base64Alphabet : JSString :=
  jsString "ABCDEFGHIJKLMNOPQRSTUVWXYZabcdefghijklmnopqrstuvwxyz0123456789+/"

/-- The code unit of `=`. -/
def padChar : Nat := 61

/-- ASCII whitespace: TAB, LF, FF, CR, SPACE. -/
def isAsciiWhitespace (c : Nat) : Bool :=
  c == 9 || c == 10 || c == 12 || c == 13 || c == 32

/-- The error `atob` throws on input that is not base64. -/
def invalidCharacterError : JSError :=
  ⟨"InvalidCharacterError", "The string to be decoded is not correctly encoded."⟩

/-- Removal of one or two trailing `=` from a string whose length is a multiple of 4. -/
def stripTrailingPadding (data : JSString) : JSString :=
  if data.length % 4 = 0 then
    if data.getLast? = some padChar then
      if data.dropLast.getLast? = some padChar then data.dropLast.dropLast
      else data.dropLast
    else data
  else data

/-- The decoder's bit buffer together with the bytes produced so far. -/
structure BitBuffer where
  value : Nat
  bits : Nat
  output : List Nat
deriving DecidableEq, Repr

/-- One character of the decoding loop: six more bits enter the buffer, and a
full buffer of 24 bits leaves as three bytes. -/
def decodeStep (st : BitBuffer) (c : Nat) : BitBuffer :=
  let value := st.value * 64 + base64Alphabet.indexOf c
  let bits := st.bits + 6
  if bits = 24 then
    ⟨0, 0, st.output ++ [value / 65536, value / 256 % 256, value % 256]⟩
  else ⟨value, bits, st.output⟩

/-- The end of the decoding loop: 12 left-over bits give one byte (the last
four are dropped), 18 give two bytes (the last two are dropped). -/
def decodeFlush (st : BitBuffer) : List Nat :=
  if st.bits = 12 then st.output ++ [st.value / 16]
  else if st.bits = 18 then st.output ++ [st.value / 1024, st.value / 4 % 256]
  else st.output

/-- The platform function `atob` (forgiving-base64 decode of the HTML standard):
the result is a binary string, one code unit below 256 per decoded byte. -/
def atob (input : JSString) : Except JSError JSString :=
  let data := input.filter (fun c => !isAsciiWhitespace c)
  let data := stripTrailingPadding data
  if data.length % 4 = 1 then .error invalidCharacterError
  else if data.any (fun c => !base64Alphabet.contains c) then .error invalidCharacterError
  else .ok (decodeFlush (data.foldl decodeStep ⟨0, 0, []⟩))

/-! ## `src/push.js`: the key decoder -/

/-- The method `String.prototype.replace` with a global one-character pattern. -/
def replaceAll (s : JSString) (pattern replacement : Nat) : JSString :=
  s.map (fun c => if c = pattern then replacement else c)

/-- The store `outputArray[i] = v` into a `Uint8Array`: the value is reduced modulo 256. -/
def uint8Store (outputArray : List Nat) (i v : Nat) : List Nat :=
  outputArray.set i (v % 256)

/-- The function `urlBase64ToUint8Array` of `src/push.js`, lines 4-11. The promise it
returns is fulfilled with the byte array, or rejected with what `atob` throws. -/
def urlBase64ToUint8Array (base64String : JSString) : Except JSError (List Nat) :=
  let padding := List.replicate ((4 - base64String.length % 4) % 4) padChar
  let base64 := replaceAll (replaceAll (base64String ++ padding) 45 43) 95 47
  match atob base64 with
  | .error e => .error e
  | .ok rawData =>
    let outputArray := List.replicate rawData.length 0
    .ok ((List.range rawData.length).foldl
      (fun out i => uint8Store out i (rawData.getD i 0)) outputArray)

/-! ## The base64url encoding the round trip is stated against -/

/-- The base64url alphabet (RFC 4648, table 2): `-` and `_` replace `+` and `/`. -/
def base64urlAlphabet : JSString :=
  jsString "ABCDEFGHIJKLMNOPQRSTUVWXYZabcdefghijklmnopqrstuvwxyz0123456789-_"

/-- The 6-bit groups of a byte sequence, most significant bits first; a final
group that is not full is completed with zero bits. -/
def base64Sextets : List Nat → List Nat
  | [] => []
  | [a] => [a / 4, a % 4 * 16]
  | [a, b] => [a / 4, a % 4 * 16 + b / 16, b % 16 * 4]
  | a :: b :: c :: rest =>
    a / 4 :: (a % 4 * 16 + b / 16) :: (b % 16 * 4 + c / 64) :: c % 64 :: base64Sextets rest

/-- URL-safe base64 without padding, as the round-trip property words it: each
6-bit group is written with the `-`/`_` alphabet and no `=` is appended. -/
def base64urlEncode (bytes : List Nat) : JSString :=
  (base64Sextets bytes).map (fun i => base64urlAlphabet.getD i 0)

/-! ## The decoding loop on 6-bit values -/

/-- The decoding step on a 6-bit value instead of on its character. -/
def sextetStep (st : BitBuffer) (i : Nat) : BitBuffer :=
  if st.bits + 6 = 24 then
    ⟨0, 0, st.output ++ [(st.value * 64 + i) / 65536, (st.value * 64 + i) / 256 % 256,
      (st.value * 64 + i) % 256]⟩
  else ⟨st.value * 64 + i, st.bits + 6, st.output⟩

/-! ## `src/push.js`: the configured key -/

/-- The code units `String.prototype.trim` removes: white space and line terminators. -/
def isTrimWhiteSpace (c : Nat) : Bool :=
  c == 9 || c == 10 || c == 11 || c == 12 || c == 13 || c == 32 || c == 160 || c == 5760
    || (8192 ≤ c && c ≤ 8202) || c == 8232 || c == 8233 || c == 8239 || c == 8287
    || c == 12288 || c == 65279

/-- The method `String.prototype.trim`. -/
def trim (s : JSString) : JSString :=
  ((s.dropWhile isTrimWhiteSpace).reverse.dropWhile isTrimWhiteSpace).reverse

/-- The constant `VAPID_PUBLIC_KEY` of `src/push.js`, line 2, as a function of the page
global `window.SUPABASE_VAPID_PUBLIC_KEY` (`none` when the global is not defined). -/
def VAPID_PUBLIC_KEY (global : Option JSString) : JSString :=
  trim (match global with
    | some s => if s.isEmpty then [] else s
    | none => [])

/-! ## The platform, as the registrar sees it -/

/-- A service-worker registration, as a handle. -/
structure ServiceWorkerRegistration where
  id : Nat
deriving DecidableEq, Repr

/-- A push subscription, as a handle. -/
structure PushSubscription where
  id : Nat
deriving DecidableEq, Repr

/-- The `keys` member of a serialized subscription; a key that is missing reads as `undefined`. -/
structure SubscriptionKeys where
  p256dh : Option String
  auth : Option String
deriving DecidableEq, Repr

/-- The value of `sub.toJSON()`; a member that is missing reads as `undefined`. -/
structure PushSubscriptionJSON where
  endpoint : Option String
  keys : Option SubscriptionKeys
deriving DecidableEq, Repr

/-- The argument of `pushManager.subscribe`. -/
structure SubscribeOptions where
  userVisibleOnly : Bool
  applicationServerKey : List Nat
deriving DecidableEq, Repr

/-- The object handed to `JSON.stringify` for the request body. -/
structure SubscriptionRecord where
  user_id : String
  endpoint : Option String
  p256dh : Option String
  auth : Option String
deriving DecidableEq, Repr

/-- The arguments of one `fetch` call. -/
structure FetchRequest where
  url : String
  method : String
  headers : List (String × String)
  body : SubscriptionRecord
deriving DecidableEq, Repr

/-- The response of the backend, by its status code. -/
structure Response where
  status : Nat
deriving DecidableEq, Repr

/-- The page environment of one call of the registrar. -/
structure Environment where
  /-- The test `'serviceWorker' in navigator`. -/
  serviceWorkerInNavigator : Bool
  /-- The test `'PushManager' in window`. -/
  pushManagerInWindow : Bool
  /-- The page global `window.SUPABASE_VAPID_PUBLIC_KEY`. -/
  SUPABASE_VAPID_PUBLIC_KEY : Option JSString
  /-- The value of `new URL('push-sw.js', document.baseURI).pathname`. -/
  swPath : Except JSError String
  register : String → Except JSError ServiceWorkerRegistration
  getSubscription : ServiceWorkerRegistration → Except JSError (Option PushSubscription)
  subscribe : ServiceWorkerRegistration → SubscribeOptions → Except JSError PushSubscription
  toJSON : PushSubscription → Except JSError PushSubscriptionJSON
  fetch : FetchRequest → Except JSError Response

/-- The steps of the registrar that can throw or reject. -/
inductive Step where
  | resolveWorkerPath
  | register (scriptURL : String)
  | getSubscription (reg : ServiceWorkerRegistration)
  | decodeKey (key : JSString)
  | subscribe (reg : ServiceWorkerRegistration) (options : SubscribeOptions)
  | toJSON (sub : PushSubscription)
  | readKeys
  | fetch (request : FetchRequest)
deriving DecidableEq, Repr

/-- One step taken, with the error it threw or rejected with, if any. -/
structure Event where
  step : Step
  thrown : Option JSError
deriving DecidableEq, Repr

/-- A run of asynchronous code: the steps taken, and either the value produced
or the error that ended the run. -/
structure Run (α : Type) where
  trace : List Event
  outcome : Except JSError α

/-- A run that takes no step and produces `a`. -/
def Run.done {α : Type} (a : α) : Run α := ⟨[], .ok a⟩

/-- A run of one step, whose result the platform supplies. -/
def Run.perform {α : Type} (step : Step) (result : Except JSError α) : Run α :=
  ⟨[⟨step, match result with | .ok _ => none | .error e => some e⟩], result⟩

/-- Sequencing: the second run starts only if the first one produced a value. -/
def Run.andThen {α β : Type} (r : Run α) (f : α → Run β) : Run β :=
  match r.outcome with
  | .error e => ⟨r.trace, .error e⟩
  | .ok a => ⟨r.trace ++ (f a).trace, (f a).outcome⟩

/-- Every error recorded in the trace of the run is the error that ended the run. -/
def Run.Faithful {α : Type} (r : Run α) : Prop :=
  ∀ ev ∈ r.trace, ∀ e, ev.thrown = some e → r.outcome = .error e

/-- The fetch requests of a trace, in order. -/
def fetchRequests (trace : List Event) : List FetchRequest :=
  trace.filterMap (fun ev => match ev.step with | .fetch request => some request | _ => none)

/-- The arguments of the `subscribe` calls of a trace, in order. -/
def subscribeCalls (trace : List Event) : List SubscribeOptions :=
  trace.filterMap (fun ev => match ev.step with | .subscribe _ options => some options | _ => none)

/-! ## `src/push.js`: the registrar -/

/-- The value the registrar resolves to: `{ ok }` or `{ ok, reason }`. -/
structure RegistrationResult where
  ok : Bool
  reason : Option String
deriving DecidableEq, Repr

/-- The error of reading a property of `undefined` (the message is the engine's). -/
def undefinedKeysError : JSError :=
  ⟨"TypeError", "Cannot read properties of undefined"⟩

/-- The request of lines 30-44. -/
def subscriptionRequest (supabaseUrl anonKey : String) (record : SubscriptionRecord) :
    FetchRequest :=
  { url := supabaseUrl ++ "/rest/v1/push_subscriptions"
    method := "POST"
    headers := [("Content-Type", "application/json"), ("apikey", anonKey),
      ("Authorization", "Bearer " ++ anonKey), ("Prefer", "resolution=merge-duplicates")]
    body := record }

/-- Lines 28-46 of `src/push.js`: the subscription is serialized and sent. -/
def sendSubscription (env : Environment) (sub : PushSubscription)
    (supabaseUrl anonKey userId : String) : Run RegistrationResult :=
  (Run.perform (.toJSON sub) (env.toJSON sub)).andThen fun json =>
  (Run.perform .readKeys
    (match json.keys with
      | some keys => .ok keys
      | none => .error undefinedKeysError)).andThen fun keys =>
  let request := subscriptionRequest supabaseUrl anonKey
    { user_id := userId, endpoint := json.endpoint, p256dh := keys.p256dh, auth := keys.auth }
  (Run.perform (.fetch request) (env.fetch request)).andThen fun _ =>
  Run.done { ok := true, reason := none }

/-- Lines 16-46 of `src/push.js`: the body of the `try` block. -/
def tryBlock (env : Environment) (supabaseUrl anonKey userId : String) :
    Run RegistrationResult :=
  (Run.perform .resolveWorkerPath env.swPath).andThen fun swPath =>
  (Run.perform (.register swPath) (env.register swPath)).andThen fun reg =>
  (Run.perform (.getSubscription reg) (env.getSubscription reg)).andThen fun existing =>
  match existing with
  | some sub => sendSubscription env sub supabaseUrl anonKey userId
  | none =>
    if (VAPID_PUBLIC_KEY env.SUPABASE_VAPID_PUBLIC_KEY).isEmpty then
      Run.done { ok := false, reason := some "missing_vapid" }
    else
      (Run.perform (.decodeKey (VAPID_PUBLIC_KEY env.SUPABASE_VAPID_PUBLIC_KEY))
        (urlBase64ToUint8Array (VAPID_PUBLIC_KEY env.SUPABASE_VAPID_PUBLIC_KEY))).andThen
      fun applicationServerKey =>
      (Run.perform (.subscribe reg { userVisibleOnly := true, applicationServerKey })
        (env.subscribe reg { userVisibleOnly := true, applicationServerKey })).andThen
      fun sub => sendSubscription env sub supabaseUrl anonKey userId

/-- The function `registerAndSubscribePush` of `src/push.js`, lines 13-50. An outcome
`.error e` would be an exception that reaches the caller. -/
def registerAndSubscribePush (env : Environment) (supabaseUrl anonKey userId : String) :
    Run RegistrationResult :=
  if !env.serviceWorkerInNavigator || !env.pushManagerInWindow then
    Run.done { ok := false, reason := some "unsupported" }
  else
    let attempt := tryBlock env supabaseUrl anonKey userId
    match attempt.outcome with
    | .ok result => ⟨attempt.trace, .ok result⟩
    | .error e => ⟨attempt.trace, .ok { ok := false, reason := some e.toText }⟩

/-! ## `src/web/push-sw.js`: the push listener -/

/-- The parsed payload of a push message: a JSON object whose members `title`,
`body`, `tag` and `url` are strings when present. -/
structure PushPayload where
  title : Option String
  body : Option String
  tag : Option String
  url : Option String
deriving DecidableEq, Repr

/-- The member `event.data` of a push event, by what its method `json()` does. -/
structure PushMessageData where
  json : Except JSError PushPayload

/-- A push event; `data` is `none` when the message has no payload. -/
structure PushEvent where
  data : Option PushMessageData

/-- The member `data` of the notification options. -/
structure NotificationData where
  url : Option String
deriving DecidableEq, Repr

/-- The options object of lines 18-25. -/
structure NotificationOptions where
  body : String
  tag : String
  data : NotificationData
  icon : String
  badge : String
  vibrate : List Nat
deriving DecidableEq, Repr

/-- What a call of `showNotification` does: it throws, or it returns a promise
that is fulfilled or rejected. -/
inductive DisplayResult where
  | throws (e : JSError)
  | promise (settled : Except JSError Unit)

/-- The worker environment of the push listener. -/
structure WorkerEnvironment where
  showNotification : String → NotificationOptions → DisplayResult

/-- What one run of a listener did. -/
structure ListenerRun where
  /-- The calls of `showNotification`, in order. -/
  shown : List (String × NotificationOptions)
  /-- The promises handed to `event.waitUntil`, by how they settle. -/
  extended : List (Except JSError Unit)
  /-- The exception that ended the run, if any. -/
  thrown : Option JSError

/-- The event is kept alive until every promise handed to `waitUntil` has settled;
its lifetime promise is fulfilled only if all of them are. -/
def ListenerRun.lifetimeFulfilled (r : ListenerRun) : Bool :=
  r.extended.all fun p =>
    match p with
    | .ok _ => true
    | .error _ => false

/-- The expression `value || fallback` on a string member that may be missing:
`undefined` and the empty string are falsy. -/
def orDefault (value : Option String) (fallback : String) : String :=
  match value with
  | some s => if s = "" then fallback else s
  | none => fallback

/-- Lines 12-27 of `src/web/push-sw.js`: the body of the `try` block. -/
def pushTryBlock (env : WorkerEnvironment) (event : PushEvent) : ListenerRun :=
  let parsed : Except JSError PushPayload :=
    match event.data with
    | some data => data.json
    | none => .ok { title := none, body := none, tag := none, url := none }
  match parsed with
  | .error e => { shown := [], extended := [], thrown := some e }
  | .ok data =>
    let title := orDefault data.title "Todo Reminder"
    let body := orDefault data.body "Time to complete your todo!"
    let tag := orDefault data.tag "todo-reminder"
    let url := orDefault data.url "/"
    let options : NotificationOptions :=
      { body := body, tag := tag, data := { url := some url }, icon := "icons/Icon-192.png",
        badge := "icons/Icon-192.png", vibrate := [120, 60, 120] }
    match env.showNotification title options with
    | .throws e => { shown := [(title, options)], extended := [], thrown := some e }
    | .promise settled =>
      { shown := [(title, options)], extended := [settled], thrown := none }

/-- The push listener of `src/web/push-sw.js`, lines 10-31: what the `try` block
throws is caught and ignored. -/
def onPush (env : WorkerEnvironment) (event : PushEvent) : ListenerRun :=
  let attempt := pushTryBlock env event
  { shown := attempt.shown, extended := attempt.extended, thrown := none }

/-! ## `src/web/push-sw.js`: the click listener -/

/-- A client of the worker. -/
structure Client where
  id : Nat
  /-- The client is a window (and not a worker). -/
  isWindow : Bool
  /-- The client is controlled by this worker. -/
  controlled : Bool
  /-- The test `'focus' in client`. -/
  hasFocus : Bool
deriving DecidableEq, Repr

/-- The clicked notification: `data` is `none` when no data was attached at display time. -/
structure ClickedNotification where
  data : Option NotificationData

/-- The worker environment of the click listener. -/
structure ClickEnvironment where
  /-- All clients in the worker's origin, in the platform's order. -/
  clients : List Client
  /-- The test `self.clients.openWindow`. -/
  hasOpenWindow : Bool

/-- The platform calls of the click listener. -/
inductive ClickAction where
  | close
  | matchAll (windowsOnly includeUncontrolled : Bool)
  | focus (client : Client)
  | openWindow (url : String)
deriving DecidableEq, Repr

/-- The platform method `clients.matchAll`. -/
def matchAll (env : ClickEnvironment) (windowsOnly includeUncontrolled : Bool) : List Client :=
  env.clients.filter fun c => (!windowsOnly || c.isWindow) && (includeUncontrolled || c.controlled)

/-- The click listener of `src/web/push-sw.js`, lines 34-45, as the platform calls it
makes, in order. The loop of lines 39-41 returns at the first client that has a
`focus` member; line 42 opens a window only if `clients.openWindow` exists. -/
def onNotificationClick (env : ClickEnvironment) (notification : ClickedNotification) :
    List ClickAction :=
  let url := orDefault (match notification.data with
    | some data => data.url
    | none => none) "/"
  let clientList := matchAll env true true
  [.close, .matchAll true true] ++
    match clientList.find? (fun client => client.hasFocus) with
    | some client => [.focus client]
    | none => if env.hasOpenWindow then [.openWindow url] else []

/-! ## Concrete environments -/

/-- A registration handle. -/
def sampleRegistration : ServiceWorkerRegistration := ⟨1⟩

/-- A subscription that exists before the registrar runs. -/
def existingSubscription : PushSubscription := ⟨7⟩

/-- A subscription created by `subscribe`. -/
def freshSubscription : PushSubscription := ⟨8⟩

/-- A serialized subscription. -/
def sampleJSON : PushSubscriptionJSON :=
  { endpoint := some "https://push.example/send/abc"
    keys := some { p256dh := some "BPk", auth := some "aUth" } }

/-- A network failure of `fetch`. -/
def networkError : JSError := ⟨"TypeError", "Failed to fetch"⟩

/-- A supporting page with the key `AQIDBA` configured, no subscription yet, and a
backend that answers with status 500. -/
def freshEnvironment : Environment :=
  { serviceWorkerInNavigator := true
    pushManagerInWindow := true
    SUPABASE_VAPID_PUBLIC_KEY := some (jsString "AQIDBA")
    swPath := .ok "/app/push-sw.js"
    register := fun _ => .ok sampleRegistration
    getSubscription := fun _ => .ok none
    subscribe := fun _ _ => .ok freshSubscription
    toJSON := fun _ => .ok sampleJSON
    fetch := fun _ => .ok ⟨500⟩ }

/-- The same page, with a backend that cannot be reached. -/
def offlineEnvironment : Environment :=
  { freshEnvironment with fetch := fun _ => .error networkError }

/-- A supporting page with an existing subscription and no key configured. -/
def subscribedEnvironment : Environment :=
  { freshEnvironment with
    SUPABASE_VAPID_PUBLIC_KEY := none
    getSubscription := fun _ => .ok (some existingSubscription) }

/-- A supporting page whose configured key is two spaces. -/
def blankKeyEnvironment : Environment :=
  { freshEnvironment with SUPABASE_VAPID_PUBLIC_KEY := some (jsString "  ") }

/-- A page without `PushManager`. -/
def unsupportedEnvironment : Environment :=
  { freshEnvironment with pushManagerInWindow := false }

/-- The registrar obtains the subscription `sub` from the registration `reg`: either
`getSubscription` returns it, or there is none, a key is configured and decodes, and
`subscribe` (user-visible only, with the decoded key) returns it. -/
def ObtainsSubscription (env : Environment) (reg : ServiceWorkerRegistration)
    (sub : PushSubscription) : Prop :=
  env.getSubscription reg = .ok (some sub) ∨
    (env.getSubscription reg = .ok none ∧
      (VAPID_PUBLIC_KEY env.SUPABASE_VAPID_PUBLIC_KEY).isEmpty = false ∧
      ∃ key, urlBase64ToUint8Array (VAPID_PUBLIC_KEY env.SUPABASE_VAPID_PUBLIC_KEY) = .ok key ∧
        env.subscribe reg { userVisibleOnly := true, applicationServerKey := key } = .ok sub)

/-- Sending the subscription `sub` fails with `e`: `toJSON` throws `e`, or the
serialized subscription has no `keys`, so that reading a key throws, or the `fetch` POST
throws or rejects with `e`. A statement about the environment only. -/
def SendFails (env : Environment) (sub : PushSubscription)
    (supabaseUrl anonKey userId : String) (e : JSError) : Prop :=
  env.toJSON sub = .error e ∨
    ∃ json, env.toJSON sub = .ok json ∧
      ((json.keys = none ∧ e = undefinedKeysError) ∨
        ∃ keys, json.keys = some keys ∧
          env.fetch (subscriptionRequest supabaseUrl anonKey
            { user_id := userId, endpoint := json.endpoint, p256dh := keys.p256dh,
              auth := keys.auth }) = .error e)

/-- On a page that supports push, the first step of the sequence that fails does so
with `e`: resolving the worker path, registering the worker, `getSubscription`,
decoding the configured key, `subscribe`, or, once a subscription is obtained, one of
the steps of sending it. A statement about the environment only. -/
def StepFails (env : Environment) (supabaseUrl anonKey userId : String) (e : JSError) : Prop :=
  env.serviceWorkerInNavigator = true ∧ env.pushManagerInWindow = true ∧
    (env.swPath = .error e ∨
      ∃ swPath, env.swPath = .ok swPath ∧
        (env.register swPath = .error e ∨
          ∃ reg, env.register swPath = .ok reg ∧
            (env.getSubscription reg = .error e ∨
              (env.getSubscription reg = .ok none ∧
                (VAPID_PUBLIC_KEY env.SUPABASE_VAPID_PUBLIC_KEY).isEmpty = false ∧
                (urlBase64ToUint8Array (VAPID_PUBLIC_KEY env.SUPABASE_VAPID_PUBLIC_KEY)
                    = .error e ∨
                  ∃ key,
                    urlBase64ToUint8Array (VAPID_PUBLIC_KEY env.SUPABASE_VAPID_PUBLIC_KEY)
                      = .ok key ∧
                    env.subscribe reg { userVisibleOnly := true, applicationServerKey := key }
                      = .error e)) ∨
              ∃ sub, ObtainsSubscription env reg sub ∧
                SendFails env sub supabaseUrl anonKey userId e)))

/-- The error of a registration that the browser refuses. -/
def securityError : JSError := ⟨"SecurityError", "The operation is insecure."⟩

/-- A supporting page on which registering the worker is refused. -/
def blockedEnvironment : Environment :=
  { freshEnvironment with register := fun _ => .error securityError }

/-! ## Wording of the listener properties -/

/-- The value `result` is selected from a payload member with the given fallback:
a member that is present and not empty is taken as it is; a member that is missing
or empty gives the fallback. -/
def Selects (field : Option String) (fallback result : String) : Prop :=
  (∀ s, field = some s → s ≠ "" → result = s) ∧
    ((field = none ∨ field = some "") → result = fallback)

/-- The notification of a payload in its plain wording: each member is taken
whenever it is present, and the fixed default only when it is missing. -/
def presentOrDefault (p : PushPayload) : String × NotificationOptions :=
  (p.title.getD "Todo Reminder",
    { body := p.body.getD "Time to complete your todo!"
      tag := p.tag.getD "todo-reminder"
      data := { url := some (p.url.getD "/") }
      icon := "icons/Icon-192.png"
      badge := "icons/Icon-192.png"
      vibrate := [120, 60, 120] })

/-- The notification built from the four defaults. -/
def defaultNotification : String × NotificationOptions :=
  ("Todo Reminder",
    { body := "Time to complete your todo!"
      tag := "todo-reminder"
      data := { url := some "/" }
      icon := "icons/Icon-192.png"
      badge := "icons/Icon-192.png"
      vibrate := [120, 60, 120] })

/-- The click routing in its plain wording: the first window client of a non-empty
list is the one focused, and an empty list always opens a window, at the attached URL,
with `/` standing in only for missing data or a missing URL. -/
def firstClientOrOpen (env : ClickEnvironment) (notification : ClickedNotification) :
    List ClickAction :=
  [.close, .matchAll true true] ++
    match matchAll env true true with
    | client :: _ => [.focus client]
    | [] =>
      match notification.data with
      | some { url := some url } => [.openWindow url]
      | _ => [.openWindow "/"]

/-- A worker in which every notification is displayed. -/
def displayingWorker : WorkerEnvironment :=
  { showNotification := fun _ _ => .promise (.ok ()) }

/-- The error of a display request that is refused. -/
def permissionError : JSError :=
  ⟨"TypeError", "No notification permission has been granted for this origin."⟩

/-- A worker in which the promise of every display request is rejected. -/
def rejectingWorker : WorkerEnvironment :=
  { showNotification := fun _ _ => .promise (.error permissionError) }

/-- A payload with all four members. -/
def fullPayload : PushPayload :=
  { title := some "T", body := some "B", tag := some "x", url := some "/y" }

/-- A payload whose title is present and empty. -/
def emptyTitlePayload : PushPayload :=
  { title := some "", body := some "B", tag := some "x", url := some "/y" }

/-- A window client without a `focus` member. -/
def inertClient : Client := { id := 1, isWindow := true, controlled := false, hasFocus := false }

/-- A window client that can be focused. -/
def openTab : Client := { id := 2, isWindow := true, controlled := false, hasFocus := true }

/-! # Properties -/

/-! ## Lemmas on the two alphabets -/

/-- Every 6-bit value is found again at its own position of the alphabet. -/
theorem indexOf_base64Alphabet (i : Nat) (h : i < 64) :
    base64Alphabet.indexOf (base64Alphabet.getD i 0) = i := by
  revert i; decide

/-- The two replacements of the decoder turn a base64url character into the
standard character of the same value. -/
theorem replace_base64urlAlphabet (i : Nat) (h : i < 64) :
    (if (if base64urlAlphabet.getD i 0 = 45 then 43 else base64urlAlphabet.getD i 0) = 95
      then 47 else (if base64urlAlphabet.getD i 0 = 45 then 43 else base64urlAlphabet.getD i 0))
      = base64Alphabet.getD i 0 := by
  revert i; decide

theorem base64Alphabet_not_whitespace (i : Nat) (h : i < 64) :
    isAsciiWhitespace (base64Alphabet.getD i 0) = false := by
  revert i; decide

theorem base64Alphabet_ne_pad (i : Nat) (h : i < 64) :
    base64Alphabet.getD i 0 ≠ padChar := by
  revert i; decide

theorem base64Alphabet_contains (i : Nat) (h : i < 64) :
    base64Alphabet.contains (base64Alphabet.getD i 0) = true := by
  revert i; decide

/-! ## Lemmas on the 6-bit groups -/

theorem base64Sextets_lt (b : List Nat) (hb : ∀ x ∈ b, x < 256) :
    ∀ s ∈ base64Sextets b, s < 64 := by
  induction b using base64Sextets.induct with
  | case1 => simp [base64Sextets]
  | case2 a =>
    have := hb a (by simp)
    simp only [base64Sextets, List.mem_cons, List.mem_singleton, List.not_mem_nil, or_false]
    rintro s (rfl | rfl) <;> omega
  | case3 a b =>
    have := hb a (by simp)
    have := hb b (by simp)
    simp only [base64Sextets, List.mem_cons, List.mem_singleton, List.not_mem_nil, or_false]
    rintro s (rfl | rfl | rfl) <;> omega
  | case4 a b c rest ih =>
    have := hb a (by simp)
    have := hb b (by simp)
    have := hb c (by simp)
    have ih := ih (fun x hx => hb x (by simp [hx]))
    simp only [base64Sextets, List.mem_cons]
    rintro s (rfl | rfl | rfl | rfl | hs)
    · omega
    · omega
    · omega
    · omega
    · exact ih s hs

theorem base64Sextets_length (b : List Nat) :
    (base64Sextets b).length % 4 = 0 ∨ (base64Sextets b).length % 4 = 2
      ∨ (base64Sextets b).length % 4 = 3 := by
  induction b using base64Sextets.induct with
  | case1 => simp [base64Sextets]
  | case2 a => simp [base64Sextets]
  | case3 a b => simp [base64Sextets]
  | case4 a b c rest ih =>
    simp only [base64Sextets, List.length_cons]
    omega


/-! ## The decoding loop on an encoded sequence -/

theorem decodeStep_eq_sextetStep (st : BitBuffer) (c : Nat) :
    decodeStep st c = sextetStep st (base64Alphabet.indexOf c) := rfl

/-- On the characters of 6-bit values the decoding loop is the loop on the values. -/
theorem foldl_decodeStep_alphabet (l : List Nat) (hl : ∀ s ∈ l, s < 64) (st : BitBuffer) :
    (l.map (fun i => base64Alphabet.getD i 0)).foldl decodeStep st = l.foldl sextetStep st := by
  induction l generalizing st with
  | nil => rfl
  | cons i l ih =>
    rw [List.map_cons, List.foldl_cons, List.foldl_cons, decodeStep_eq_sextetStep,
      indexOf_base64Alphabet i (hl i (by simp))]
    exact ih (fun s hs => hl s (by simp [hs])) _


theorem sextetStep_zero (v : Nat) (out : List Nat) (i : Nat) :
    sextetStep ⟨v, 0, out⟩ i = ⟨v * 64 + i, 6, out⟩ := by
  simp [sextetStep]

theorem sextetStep_six (v : Nat) (out : List Nat) (i : Nat) :
    sextetStep ⟨v, 6, out⟩ i = ⟨v * 64 + i, 12, out⟩ := by
  simp [sextetStep]

theorem sextetStep_twelve (v : Nat) (out : List Nat) (i : Nat) :
    sextetStep ⟨v, 12, out⟩ i = ⟨v * 64 + i, 18, out⟩ := by
  simp [sextetStep]

theorem sextetStep_eighteen (v : Nat) (out : List Nat) (i : Nat) :
    sextetStep ⟨v, 18, out⟩ i =
      ⟨0, 0, out ++ [(v * 64 + i) / 65536, (v * 64 + i) / 256 % 256, (v * 64 + i) % 256]⟩ := by
  simp [sextetStep]


theorem decodeFlush_twelve (v : Nat) (out : List Nat) :
    decodeFlush ⟨v, 12, out⟩ = out ++ [v / 16] := by
  simp [decodeFlush]

theorem decodeFlush_eighteen (v : Nat) (out : List Nat) :
    decodeFlush ⟨v, 18, out⟩ = out ++ [v / 1024, v / 4 % 256] := by
  simp [decodeFlush]

/-- The loop on the 6-bit groups of `b` appends `b` to the output. -/
theorem sextetStep_base64Sextets (b : List Nat) (hb : ∀ x ∈ b, x < 256) (out : List Nat) :
    decodeFlush ((base64Sextets b).foldl sextetStep ⟨0, 0, out⟩) = out ++ b := by
  induction b using base64Sextets.induct generalizing out with
  | case1 => simp [base64Sextets, decodeFlush]
  | case2 a =>
    have ha := hb a (by simp)
    have e1 : ((0 * 64 + a / 4) * 64 + a % 4 * 16) / 16 = a := by omega
    simp only [base64Sextets, List.foldl_cons, List.foldl_nil, sextetStep_zero, sextetStep_six,
      decodeFlush_twelve, e1]
  | case3 a b =>
    have ha := hb a (by simp)
    have hb' := hb b (by simp)
    have e1 : (((0 * 64 + a / 4) * 64 + (a % 4 * 16 + b / 16)) * 64 + b % 16 * 4) / 1024 = a := by
      omega
    have e2 : (((0 * 64 + a / 4) * 64 + (a % 4 * 16 + b / 16)) * 64 + b % 16 * 4) / 4 % 256
        = b := by omega
    simp only [base64Sextets, List.foldl_cons, List.foldl_nil, sextetStep_zero, sextetStep_six,
      sextetStep_twelve, decodeFlush_eighteen, e1, e2]
  | case4 a b c rest ih =>
    have ha := hb a (by simp)
    have hb' := hb b (by simp)
    have hc := hb c (by simp)
    have e1 : ((((0 * 64 + a / 4) * 64 + (a % 4 * 16 + b / 16)) * 64 + (b % 16 * 4 + c / 64)) * 64
        + c % 64) / 65536 = a := by omega
    have e2 : ((((0 * 64 + a / 4) * 64 + (a % 4 * 16 + b / 16)) * 64 + (b % 16 * 4 + c / 64)) * 64
        + c % 64) / 256 % 256 = b := by omega
    have e3 : ((((0 * 64 + a / 4) * 64 + (a % 4 * 16 + b / 16)) * 64 + (b % 16 * 4 + c / 64)) * 64
        + c % 64) % 256 = c := by omega
    simp only [base64Sextets, List.foldl_cons, sextetStep_zero, sextetStep_six,
      sextetStep_twelve, sextetStep_eighteen, e1, e2, e3]
    rw [ih (fun x hx => hb x (by simp [hx]))]
    simp only [List.append_assoc, List.cons_append, List.nil_append]

/-! ## The copy into the byte array -/

/-- The copying loop of the decoder, run for its first `n` rounds. -/
theorem uint8_copy_upto (raw : List Nat) (n : Nat) (hn : n ≤ raw.length) :
    (List.range n).foldl (fun out i => uint8Store out i (raw.getD i 0))
        (List.replicate raw.length 0)
      = (raw.take n).map (fun v => v % 256) ++ List.replicate (raw.length - n) 0 := by
  induction n with
  | zero => simp
  | succ n ih =>
    have hlt : n < raw.length := hn
    rw [List.range_succ, List.foldl_append, ih (by omega), List.foldl_cons, List.foldl_nil,
      uint8Store, List.set_append]
    have hlen : (List.map (fun v => v % 256) (List.take n raw)).length = n := by
      simp [List.length_take]; omega
    rw [hlen, if_neg (by omega), Nat.sub_self]
    have hrep : raw.length - n = (raw.length - (n + 1)) + 1 := by omega
    have htake : List.take (n + 1) raw = List.take n raw ++ [raw.getD n 0] := by
      rw [List.take_succ, List.getD_eq_getElem?_getD, List.getElem?_eq_getElem hlt]
      rfl
    rw [hrep, List.replicate_succ, List.set_cons_zero, htake, List.map_append,
      List.append_assoc]
    rfl

/-- The copying loop stores every code unit of the binary string, reduced modulo 256. -/
theorem uint8_copy (raw : List Nat) :
    (List.range raw.length).foldl (fun out i => uint8Store out i (raw.getD i 0))
        (List.replicate raw.length 0) = raw.map (fun v => v % 256) := by
  rw [uint8_copy_upto raw raw.length (le_refl _)]
  simp


/-! ## Padding -/

theorem getLast?_ne_pad (X : JSString) (hX : ∀ c ∈ X, c ≠ padChar) :
    X.getLast? ≠ some padChar := by
  intro h
  obtain ⟨ys, rfl⟩ := List.getLast?_eq_some_iff.mp h
  exact hX padChar (by simp) rfl

/-- The padding the decoder appends to an unpadded string is what `atob` strips again. -/
theorem stripTrailingPadding_append (X : JSString) (hX : ∀ c ∈ X, c ≠ padChar)
    (hlen : X.length % 4 = 0 ∨ X.length % 4 = 2 ∨ X.length % 4 = 3) :
    stripTrailingPadding (X ++ List.replicate ((4 - X.length % 4) % 4) padChar) = X := by
  have hlast := getLast?_ne_pad X hX
  rcases hlen with h | h | h
  · have hk : (4 - X.length % 4) % 4 = 0 := by omega
    rw [hk, List.replicate_zero, List.append_nil, stripTrailingPadding, if_pos h, if_neg hlast]
  · have hk : (4 - X.length % 4) % 4 = 2 := by omega
    have hrep : X ++ List.replicate 2 padChar = (X ++ [padChar]) ++ [padChar] := by
      simp [List.replicate]
    have hl : ((X ++ [padChar]) ++ [padChar]).length % 4 = 0 := by
      simp only [List.length_append, List.length_singleton]; omega
    rw [hk, hrep, stripTrailingPadding, if_pos hl, List.getLast?_concat, if_pos rfl,
      List.dropLast_concat, List.getLast?_concat, if_pos rfl, List.dropLast_concat]
  · have hk : (4 - X.length % 4) % 4 = 1 := by omega
    have hrep : X ++ List.replicate 1 padChar = X ++ [padChar] := by
      simp [List.replicate]
    have hl : (X ++ [padChar]).length % 4 = 0 := by
      simp only [List.length_append, List.length_singleton]; omega
    rw [hk, hrep, stripTrailingPadding, if_pos hl, List.getLast?_concat, if_pos rfl,
      List.dropLast_concat, if_neg hlast]

/-- What `atob` returns on the standard characters of the 6-bit groups of `b`,
followed by the padding the decoder computes. -/
theorem atob_base64Sextets (b : List Nat) (hb : ∀ x ∈ b, x < 256) :
    atob ((base64Sextets b).map (fun i => base64Alphabet.getD i 0) ++
      List.replicate ((4 - (base64Sextets b).length % 4) % 4) padChar) = .ok b := by
  have hlt := base64Sextets_lt b hb
  have hlen := base64Sextets_length b
  generalize hE : base64Sextets b = E at hlt hlen
  have hXlen : (E.map (fun i => base64Alphabet.getD i 0)).length = E.length := List.length_map _ _
  have hpad : ∀ c ∈ E.map (fun i => base64Alphabet.getD i 0), c ≠ padChar := by
    intro c hc
    obtain ⟨i, hi, rfl⟩ := List.mem_map.mp hc
    exact base64Alphabet_ne_pad i (hlt i hi)
  have hfilter : (E.map (fun i => base64Alphabet.getD i 0) ++
      List.replicate ((4 - E.length % 4) % 4) padChar).filter (fun c => !isAsciiWhitespace c)
      = E.map (fun i => base64Alphabet.getD i 0) ++
        List.replicate ((4 - E.length % 4) % 4) padChar := by
    rw [List.filter_eq_self]
    intro c hc
    rcases List.mem_append.mp hc with hc | hc
    · obtain ⟨i, hi, rfl⟩ := List.mem_map.mp hc
      rw [base64Alphabet_not_whitespace i (hlt i hi)]; rfl
    · rw [List.eq_of_mem_replicate hc]; rfl
  have hstrip := stripTrailingPadding_append (E.map (fun i => base64Alphabet.getD i 0)) hpad
    (by rw [hXlen]; exact hlen)
  rw [hXlen] at hstrip
  have hmod : ¬ (E.map (fun i => base64Alphabet.getD i 0)).length % 4 = 1 := by
    rw [hXlen]; omega
  have hany : (E.map (fun i => base64Alphabet.getD i 0)).any
      (fun c => !base64Alphabet.contains c) = false := by
    rw [List.any_eq_false]
    intro c hc
    obtain ⟨i, hi, rfl⟩ := List.mem_map.mp hc
    rw [base64Alphabet_contains i (hlt i hi)]; simp
  have hdec := sextetStep_base64Sextets b hb []
  rw [hE, ← foldl_decodeStep_alphabet E hlt, List.nil_append] at hdec
  simp only [atob, hfilter, hstrip, if_neg hmod, hany, hdec]
  rfl

/-- The decoder's two replacements, applied to an encoded and padded string. -/
theorem replaceAll_base64urlEncode (b : List Nat) (hb : ∀ x ∈ b, x < 256) (k : Nat) :
    replaceAll (replaceAll (base64urlEncode b ++ List.replicate k padChar) 45 43) 95 47
      = (base64Sextets b).map (fun i => base64Alphabet.getD i 0) ++ List.replicate k padChar := by
  have hlt := base64Sextets_lt b hb
  simp only [replaceAll, base64urlEncode, List.map_append, List.map_map, List.map_replicate]
  congr 1
  · apply List.map_congr_left
    intro i hi
    exact replace_base64urlAlphabet i (hlt i hi)


/-- Claim C1: for every byte array `b`, encoding `b` as URL-safe base64 without
padding and decoding the result with `urlBase64ToUint8Array` gives back `b`: the same
length and the same byte at every index, whatever the length of the encoded string is
modulo 4. -/
theorem urlBase64ToUint8Array_roundtrip (b : List Nat) (hb : ∀ x ∈ b, x < 256) :
    urlBase64ToUint8Array (base64urlEncode b) = .ok b := by
  have hlenE : (base64urlEncode b).length = (base64Sextets b).length := by
    simp [base64urlEncode]
  have hmap : b.map (fun v => v % 256) = b := by
    conv_rhs => rw [← List.map_id b]
    apply List.map_congr_left
    intro x hx
    exact Nat.mod_eq_of_lt (hb x hx)
  simp only [urlBase64ToUint8Array, hlenE, replaceAll_base64urlEncode b hb,
    atob_base64Sextets b hb, uint8_copy, hmap]

/-- Witness for claim C1: the bytes `fb ff` encode to the three characters `-_8`, which
need one `=` of padding and both replacements, and decode to `fb ff` again. -/
theorem urlBase64ToUint8Array_roundtrip_witness :
    (∀ x ∈ [251, 255], x < 256) ∧ (base64urlEncode [251, 255]).length % 4 = 3 ∧
      urlBase64ToUint8Array (base64urlEncode [251, 255]) = .ok [251, 255] :=
  ⟨by decide, by decide, urlBase64ToUint8Array_roundtrip [251, 255] (by decide)⟩

/-! ## Runs: an error in the trace is the error of the run -/

theorem Run.done_faithful {α : Type} (a : α) : (Run.done a).Faithful := by
  intro ev hev
  simp [Run.done] at hev

theorem Run.perform_faithful {α : Type} (step : Step) (result : Except JSError α) :
    (Run.perform step result).Faithful := by
  intro ev hev e he
  simp only [Run.perform, List.mem_singleton] at hev
  subst hev
  cases result with
  | error e0 => simp only [Option.some.injEq] at he; simp [Run.perform, he]
  | ok a => simp at he

theorem Run.andThen_faithful {α β : Type} (r : Run α) (f : α → Run β) (hr : r.Faithful)
    (hf : ∀ a, (f a).Faithful) : (r.andThen f).Faithful := by
  intro ev hev e he
  unfold Run.andThen at hev ⊢
  cases hout : r.outcome with
  | error e0 =>
    simp only [hout] at hev ⊢
    have := hr ev hev e he
    rw [hout] at this
    cases this
    rfl
  | ok a =>
    simp only [hout] at hev ⊢
    rcases List.mem_append.mp hev with h | h
    · have := hr ev h e he
      rw [hout] at this
      cases this
    · exact hf a ev h e he

theorem sendSubscription_faithful (env : Environment) (sub : PushSubscription)
    (supabaseUrl anonKey userId : String) :
    (sendSubscription env sub supabaseUrl anonKey userId).Faithful := by
  unfold sendSubscription
  refine Run.andThen_faithful _ _ (Run.perform_faithful _ _) fun json => ?_
  refine Run.andThen_faithful _ _ (Run.perform_faithful _ _) fun keys => ?_
  refine Run.andThen_faithful _ _ (Run.perform_faithful _ _) fun _ => ?_
  exact Run.done_faithful _

theorem tryBlock_faithful (env : Environment) (supabaseUrl anonKey userId : String) :
    (tryBlock env supabaseUrl anonKey userId).Faithful := by
  unfold tryBlock
  refine Run.andThen_faithful _ _ (Run.perform_faithful _ _) fun swPath => ?_
  refine Run.andThen_faithful _ _ (Run.perform_faithful _ _) fun reg => ?_
  refine Run.andThen_faithful _ _ (Run.perform_faithful _ _) fun existing => ?_
  cases existing with
  | some sub => exact sendSubscription_faithful env sub supabaseUrl anonKey userId
  | none =>
    simp only
    split
    · exact Run.done_faithful _
    · refine Run.andThen_faithful _ _ (Run.perform_faithful _ _) fun key => ?_
      refine Run.andThen_faithful _ _ (Run.perform_faithful _ _) fun sub => ?_
      exact sendSubscription_faithful env sub supabaseUrl anonKey userId

/-- The registrar always returns: no run ends in an error passed on to the caller. -/
theorem registerAndSubscribePush_returns (env : Environment)
    (supabaseUrl anonKey userId : String) :
    ∃ result, (registerAndSubscribePush env supabaseUrl anonKey userId).outcome = .ok result := by
  unfold registerAndSubscribePush
  split
  · exact ⟨_, rfl⟩
  · simp only
    cases (tryBlock env supabaseUrl anonKey userId).outcome with
    | ok r => exact ⟨_, rfl⟩
    | error e => exact ⟨_, rfl⟩

/-- An error recorded in the trace of the registrar is the one its result reports. -/
theorem registerAndSubscribePush_trace_error (env : Environment)
    (supabaseUrl anonKey userId : String) (e : JSError)
    (h : ∃ ev ∈ (registerAndSubscribePush env supabaseUrl anonKey userId).trace,
      ev.thrown = some e) :
    (registerAndSubscribePush env supabaseUrl anonKey userId).outcome
      = .ok { ok := false, reason := some e.toText } := by
  obtain ⟨ev, hev, he⟩ := h
  have hf := tryBlock_faithful env supabaseUrl anonKey userId
  unfold registerAndSubscribePush at hev ⊢
  split at hev
  · simp [Run.done] at hev
  · rename_i hsupp
    rw [if_neg hsupp]
    simp only at hev ⊢
    cases hout : (tryBlock env supabaseUrl anonKey userId).outcome with
    | ok r =>
      simp only [hout] at hev
      have := hf ev hev e he
      rw [hout] at this
      cases this
    | error e0 =>
      simp only [hout] at hev ⊢
      have := hf ev hev e he
      rw [hout] at this
      cases this
      rfl

/-- Sending a subscription that fails with `e` ends the `try` block with `e`. -/
theorem sendSubscription_fails (env : Environment) (sub : PushSubscription)
    (supabaseUrl anonKey userId : String) (e : JSError)
    (h : SendFails env sub supabaseUrl anonKey userId e) :
    (sendSubscription env sub supabaseUrl anonKey userId).outcome = .error e := by
  rcases h with h | ⟨json, hjson, ⟨hkeys, rfl⟩ | ⟨keys, hkeys, hfetch⟩⟩
  · simp [sendSubscription, Run.andThen, Run.perform, h]
  · simp [sendSubscription, Run.andThen, Run.perform, hjson, hkeys]
  · simp [sendSubscription, Run.andThen, Run.perform, hjson, hkeys, hfetch]

/-- A failing step of the environment ends the `try` block with its error. -/
theorem tryBlock_fails (env : Environment) (supabaseUrl anonKey userId : String)
    (e : JSError) (h : StepFails env supabaseUrl anonKey userId e) :
    (tryBlock env supabaseUrl anonKey userId).outcome = .error e := by
  obtain ⟨_, _, h⟩ := h
  rcases h with h | ⟨swPath, hpath, h⟩
  · simp [tryBlock, Run.andThen, Run.perform, h]
  rcases h with h | ⟨reg, hreg, h⟩
  · simp [tryBlock, Run.andThen, Run.perform, hpath, h]
  rcases h with h | ⟨hnone, hkey, h⟩ | ⟨sub, hsub, hsend⟩
  · simp [tryBlock, Run.andThen, Run.perform, hpath, hreg, h]
  · rcases h with h | ⟨key, hdec, h⟩
    · simp [tryBlock, Run.andThen, Run.perform, hpath, hreg, hnone, hkey, h]
    · simp [tryBlock, Run.andThen, Run.perform, hpath, hreg, hnone, hkey, hdec, h]
  · have hs := sendSubscription_fails env sub supabaseUrl anonKey userId e hsend
    rcases hsub with hsub | ⟨hnone, hkey, key, hdec, hsubscribe⟩
    · simp [tryBlock, Run.andThen, Run.perform, hpath, hreg, hsub, hs]
    · simp [tryBlock, Run.andThen, Run.perform, hpath, hreg, hnone, hkey, hdec, hsubscribe, hs]

/-- Conversely, an error that ends the sending of a subscription is a failing step of it. -/
theorem sendSubscription_error (env : Environment) (sub : PushSubscription)
    (supabaseUrl anonKey userId : String) (e : JSError)
    (h : (sendSubscription env sub supabaseUrl anonKey userId).outcome = .error e) :
    SendFails env sub supabaseUrl anonKey userId e := by
  unfold SendFails
  cases hjson : env.toJSON sub with
  | error e0 =>
    simp [sendSubscription, Run.andThen, Run.perform, hjson] at h
    exact Or.inl (by rw [h])
  | ok json =>
    refine Or.inr ⟨json, rfl, ?_⟩
    cases hkeys : json.keys with
    | none =>
      simp [sendSubscription, Run.andThen, Run.perform, hjson, hkeys] at h
      exact Or.inl ⟨rfl, h.symm⟩
    | some keys =>
      refine Or.inr ⟨keys, rfl, ?_⟩
      cases hfetch : env.fetch (subscriptionRequest supabaseUrl anonKey
        { user_id := userId, endpoint := json.endpoint, p256dh := keys.p256dh,
          auth := keys.auth }) with
      | error e0 =>
        simp [sendSubscription, Run.andThen, Run.perform, Run.done, hjson, hkeys, hfetch] at h
        rw [h]
      | ok r =>
        simp [sendSubscription, Run.andThen, Run.perform, Run.done, hjson, hkeys, hfetch] at h

/-- Conversely, an error that ends the `try` block is a failing step of the environment:
the steps listed in `StepFails` are all the ways in which the block can fail. -/
theorem tryBlock_error (env : Environment) (supabaseUrl anonKey userId : String)
    (e : JSError) (hsw : env.serviceWorkerInNavigator = true)
    (hpm : env.pushManagerInWindow = true)
    (h : (tryBlock env supabaseUrl anonKey userId).outcome = .error e) :
    StepFails env supabaseUrl anonKey userId e := by
  refine ⟨hsw, hpm, ?_⟩
  cases hpath : env.swPath with
  | error e0 =>
    simp [tryBlock, Run.andThen, Run.perform, hpath] at h
    exact Or.inl (by rw [h])
  | ok swPath =>
    refine Or.inr ⟨swPath, rfl, ?_⟩
    cases hreg : env.register swPath with
    | error e0 =>
      simp [tryBlock, Run.andThen, Run.perform, hpath, hreg] at h
      exact Or.inl (by rw [h])
    | ok reg =>
      refine Or.inr ⟨reg, rfl, ?_⟩
      cases hget : env.getSubscription reg with
      | error e0 =>
        simp [tryBlock, Run.andThen, Run.perform, hpath, hreg, hget] at h
        exact Or.inl (by rw [h])
      | ok existing =>
        cases existing with
        | some sub =>
          simp only [tryBlock, Run.andThen, Run.perform, hpath, hreg, hget] at h
          exact Or.inr (Or.inr ⟨sub, Or.inl hget,
            sendSubscription_error env sub supabaseUrl anonKey userId e h⟩)
        | none =>
          cases hkey : (VAPID_PUBLIC_KEY env.SUPABASE_VAPID_PUBLIC_KEY).isEmpty with
          | true =>
            simp [tryBlock, Run.andThen, Run.perform, Run.done, hpath, hreg, hget, hkey] at h
          | false =>
            cases hdec : urlBase64ToUint8Array
                (VAPID_PUBLIC_KEY env.SUPABASE_VAPID_PUBLIC_KEY) with
            | error e0 =>
              simp [tryBlock, Run.andThen, Run.perform, hpath, hreg, hget, hkey, hdec] at h
              exact Or.inr (Or.inl ⟨rfl, rfl, Or.inl (by rw [h])⟩)
            | ok key =>
              cases hsubscribe : env.subscribe reg
                  { userVisibleOnly := true, applicationServerKey := key } with
              | error e0 =>
                simp [tryBlock, Run.andThen, Run.perform, hpath, hreg, hget, hkey, hdec,
                  hsubscribe] at h
                subst h
                exact Or.inr (Or.inl ⟨rfl, rfl, Or.inr ⟨key, rfl, hsubscribe⟩⟩)
              | ok sub =>
                simp only [tryBlock, Run.andThen, Run.perform, hpath, hreg, hget, hkey, hdec,
                  hsubscribe] at h
                exact Or.inr (Or.inr ⟨sub, Or.inr ⟨hget, hkey, key, hdec, hsubscribe⟩,
                  sendSubscription_error env sub supabaseUrl anonKey userId e
                    (by simpa using h)⟩)

/-- Claim C2: the registrar never passes an exception on to its caller. For every
environment and all arguments its run ends in a returned value; and if a step of the
sequence (resolving the worker path, registering the worker, `getSubscription`,
decoding the key, `subscribe`, `toJSON` and reading the keys, the `fetch` POST) throws
or rejects with `e` in that environment, the value returned is
`{ ok: false, reason: String(e) }`. The same holds of every error recorded in the
trace of the run. -/
theorem registerAndSubscribePush_catches (env : Environment)
    (supabaseUrl anonKey userId : String) :
    (∃ result,
      (registerAndSubscribePush env supabaseUrl anonKey userId).outcome = .ok result) ∧
    (∀ e, StepFails env supabaseUrl anonKey userId e →
      (registerAndSubscribePush env supabaseUrl anonKey userId).outcome
        = .ok { ok := false, reason := some e.toText }) ∧
    (∀ e, (∃ ev ∈ (registerAndSubscribePush env supabaseUrl anonKey userId).trace,
        ev.thrown = some e) →
      (registerAndSubscribePush env supabaseUrl anonKey userId).outcome
        = .ok { ok := false, reason := some e.toText }) := by
  refine ⟨registerAndSubscribePush_returns env supabaseUrl anonKey userId, ?_,
    fun e h => registerAndSubscribePush_trace_error env supabaseUrl anonKey userId e h⟩
  intro e h
  have hfail := tryBlock_fails env supabaseUrl anonKey userId e h
  obtain ⟨hsw, hpm, _⟩ := h
  simp [registerAndSubscribePush, hsw, hpm, hfail]

/-- Witness for claim C2: when the POST cannot reach the backend, and when the
browser refuses to register the worker, the registrar returns the failure result
that carries the text of the error. -/
theorem registerAndSubscribePush_catches_witness :
    (StepFails offlineEnvironment "https://db.example" "anon" "u1" networkError ∧
      (registerAndSubscribePush offlineEnvironment "https://db.example" "anon" "u1").outcome
        = .ok { ok := false, reason := some "TypeError: Failed to fetch" }) ∧
    (StepFails blockedEnvironment "https://db.example" "anon" "u1" securityError ∧
      (registerAndSubscribePush blockedEnvironment "https://db.example" "anon" "u1").outcome
        = .ok { ok := false, reason := some "SecurityError: The operation is insecure." }) :=
  have hoffline : StepFails offlineEnvironment "https://db.example" "anon" "u1" networkError :=
    ⟨rfl, rfl, Or.inr ⟨"/app/push-sw.js", rfl, Or.inr ⟨sampleRegistration, rfl,
      Or.inr (Or.inr ⟨freshSubscription, Or.inr ⟨rfl, by decide, [1, 2, 3, 4], rfl, rfl⟩,
        Or.inr ⟨sampleJSON, rfl, Or.inr ⟨_, rfl, rfl⟩⟩⟩)⟩⟩⟩
  have hblocked : StepFails blockedEnvironment "https://db.example" "anon" "u1" securityError :=
    ⟨rfl, rfl, Or.inr ⟨"/app/push-sw.js", rfl, Or.inl rfl⟩⟩
  ⟨⟨hoffline, (registerAndSubscribePush_catches offlineEnvironment "https://db.example" "anon"
      "u1").2.1 networkError hoffline⟩,
    ⟨hblocked, (registerAndSubscribePush_catches blockedEnvironment "https://db.example" "anon"
      "u1").2.1 securityError hblocked⟩⟩

/-! ## The registrar on its individual paths -/

/-- The run of lines 28-46 on a subscription that serializes with its keys. -/
theorem sendSubscription_run (env : Environment) (sub : PushSubscription)
    (supabaseUrl anonKey userId : String) (json : PushSubscriptionJSON)
    (keys : SubscriptionKeys) (hjson : env.toJSON sub = .ok json) (hkeys : json.keys = some keys) :
    sendSubscription env sub supabaseUrl anonKey userId =
      let request := subscriptionRequest supabaseUrl anonKey
        { user_id := userId, endpoint := json.endpoint, p256dh := keys.p256dh,
          auth := keys.auth }
      match env.fetch request with
      | .ok _ => ⟨[⟨.toJSON sub, none⟩, ⟨.readKeys, none⟩, ⟨.fetch request, none⟩],
          .ok { ok := true, reason := none }⟩
      | .error e => ⟨[⟨.toJSON sub, none⟩, ⟨.readKeys, none⟩, ⟨.fetch request, some e⟩],
          .error e⟩ := by
  simp only [sendSubscription, Run.andThen, Run.perform, Run.done, hjson, hkeys]
  cases env.fetch (subscriptionRequest supabaseUrl anonKey
    { user_id := userId, endpoint := json.endpoint, p256dh := keys.p256dh,
      auth := keys.auth }) <;> simp

/-- Claim C3: on a page that supports push, with a registration whose
`getSubscription` returns an existing subscription `s` (serialized as `json`, with keys
`keys`), the registrar never calls `subscribe`, whatever key is configured, and issues
the POST whose body holds `user_id = userId` and the endpoint, `p256dh` and `auth` of `s`. -/
theorem registerAndSubscribePush_existing (env : Environment)
    (supabaseUrl anonKey userId : String) (swPath : String) (reg : ServiceWorkerRegistration)
    (s : PushSubscription) (json : PushSubscriptionJSON) (keys : SubscriptionKeys)
    (hsw : env.serviceWorkerInNavigator = true) (hpm : env.pushManagerInWindow = true)
    (hpath : env.swPath = .ok swPath) (hreg : env.register swPath = .ok reg)
    (hsub : env.getSubscription reg = .ok (some s))
    (hjson : env.toJSON s = .ok json) (hkeys : json.keys = some keys) :
    subscribeCalls (registerAndSubscribePush env supabaseUrl anonKey userId).trace = [] ∧
      ∃ request,
        fetchRequests (registerAndSubscribePush env supabaseUrl anonKey userId).trace = [request] ∧
        request.method = "POST" ∧
        request.body =
          { user_id := userId, endpoint := json.endpoint, p256dh := keys.p256dh,
            auth := keys.auth } := by
  refine ⟨?_, subscriptionRequest supabaseUrl anonKey
    { user_id := userId, endpoint := json.endpoint, p256dh := keys.p256dh,
      auth := keys.auth }, ?_, rfl, rfl⟩
  all_goals
    simp only [registerAndSubscribePush, tryBlock, Run.andThen, Run.perform, hsw, hpm, hpath,
      hreg, hsub, sendSubscription_run env s supabaseUrl anonKey userId json keys hjson hkeys]
    cases env.fetch (subscriptionRequest supabaseUrl anonKey
      { user_id := userId, endpoint := json.endpoint, p256dh := keys.p256dh,
        auth := keys.auth }) <;> simp [subscribeCalls, fetchRequests]

/-- Witness for claim C3: a page with an existing subscription and no key configured. -/
theorem registerAndSubscribePush_existing_witness :
    subscribeCalls
        (registerAndSubscribePush subscribedEnvironment "https://db.example" "anon" "u1").trace
        = [] ∧
      ∃ request,
        fetchRequests
          (registerAndSubscribePush subscribedEnvironment "https://db.example" "anon" "u1").trace
          = [request] ∧
        request.method = "POST" ∧
        request.body =
          { user_id := "u1", endpoint := some "https://push.example/send/abc",
            p256dh := some "BPk", auth := some "aUth" } :=
  registerAndSubscribePush_existing subscribedEnvironment "https://db.example" "anon" "u1"
    "/app/push-sw.js" sampleRegistration existingSubscription sampleJSON
    { p256dh := some "BPk", auth := some "aUth" } rfl rfl rfl rfl rfl rfl rfl

/-- Claim C4: on a page that supports push, with a registration that has no
subscription, and a configured key that is empty once trimmed, the registrar returns
`{ ok: false, reason: 'missing_vapid' }` and calls neither `subscribe` nor `fetch`. -/
theorem registerAndSubscribePush_missing_vapid (env : Environment)
    (supabaseUrl anonKey userId : String) (swPath : String) (reg : ServiceWorkerRegistration)
    (hsw : env.serviceWorkerInNavigator = true) (hpm : env.pushManagerInWindow = true)
    (hpath : env.swPath = .ok swPath) (hreg : env.register swPath = .ok reg)
    (hsub : env.getSubscription reg = .ok none)
    (hkey : VAPID_PUBLIC_KEY env.SUPABASE_VAPID_PUBLIC_KEY = []) :
    (registerAndSubscribePush env supabaseUrl anonKey userId).outcome
        = .ok { ok := false, reason := some "missing_vapid" } ∧
      subscribeCalls (registerAndSubscribePush env supabaseUrl anonKey userId).trace = [] ∧
      fetchRequests (registerAndSubscribePush env supabaseUrl anonKey userId).trace = [] := by
  simp [registerAndSubscribePush, tryBlock, Run.andThen, Run.perform, Run.done, hsw, hpm,
    hpath, hreg, hsub, hkey, subscribeCalls, fetchRequests]

/-- Witness for claim C4: a page whose configured key is two spaces. -/
theorem registerAndSubscribePush_missing_vapid_witness :
    VAPID_PUBLIC_KEY blankKeyEnvironment.SUPABASE_VAPID_PUBLIC_KEY = [] ∧
      (registerAndSubscribePush blankKeyEnvironment "https://db.example" "anon" "u1").outcome
        = .ok { ok := false, reason := some "missing_vapid" } ∧
      subscribeCalls
        (registerAndSubscribePush blankKeyEnvironment "https://db.example" "anon" "u1").trace
        = [] ∧
      fetchRequests
        (registerAndSubscribePush blankKeyEnvironment "https://db.example" "anon" "u1").trace
        = [] :=
  ⟨by decide, registerAndSubscribePush_missing_vapid blankKeyEnvironment "https://db.example"
    "anon" "u1" "/app/push-sw.js" sampleRegistration rfl rfl rfl rfl rfl (by decide)⟩

/-- Claim C5: on a page that lacks service-worker support or lacks `PushManager`,
the registrar returns exactly `{ ok: false, reason: 'unsupported' }` for all arguments
and takes no step at all: no registration, no `subscribe`, no POST. -/
theorem registerAndSubscribePush_unsupported (env : Environment)
    (supabaseUrl anonKey userId : String)
    (h : env.serviceWorkerInNavigator = false ∨ env.pushManagerInWindow = false) :
    (registerAndSubscribePush env supabaseUrl anonKey userId).outcome
        = .ok { ok := false, reason := some "unsupported" } ∧
      (registerAndSubscribePush env supabaseUrl anonKey userId).trace = [] := by
  rcases h with h | h <;> simp [registerAndSubscribePush, Run.done, h]

/-- Witness for claim C5: a page without `PushManager`. -/
theorem registerAndSubscribePush_unsupported_witness :
    (registerAndSubscribePush unsupportedEnvironment "https://db.example" "anon" "u1").outcome
        = .ok { ok := false, reason := some "unsupported" } ∧
      (registerAndSubscribePush unsupportedEnvironment "https://db.example" "anon" "u1").trace
        = [] :=
  registerAndSubscribePush_unsupported unsupportedEnvironment "https://db.example" "anon" "u1"
    (Or.inr rfl)

/-- Claim C6: on the path where registration and subscription succeed (a
subscription is obtained and serializes with its keys), the registrar issues exactly
one request: a POST to `supabaseUrl` followed by `/rest/v1/push_subscriptions` with the
headers `Content-Type: application/json`, `apikey: anonKey`,
`Authorization: Bearer anonKey` and `Prefer: resolution=merge-duplicates`; and whenever
that request completes, with whatever status, the result is `{ ok: true }`. -/
theorem registerAndSubscribePush_post (env : Environment)
    (supabaseUrl anonKey userId : String) (swPath : String) (reg : ServiceWorkerRegistration)
    (sub : PushSubscription) (json : PushSubscriptionJSON) (keys : SubscriptionKeys)
    (hsw : env.serviceWorkerInNavigator = true) (hpm : env.pushManagerInWindow = true)
    (hpath : env.swPath = .ok swPath) (hreg : env.register swPath = .ok reg)
    (hsub : ObtainsSubscription env reg sub)
    (hjson : env.toJSON sub = .ok json) (hkeys : json.keys = some keys) :
    ∃ request,
      fetchRequests (registerAndSubscribePush env supabaseUrl anonKey userId).trace = [request] ∧
      request.method = "POST" ∧
      request.url = supabaseUrl ++ "/rest/v1/push_subscriptions" ∧
      request.headers = [("Content-Type", "application/json"), ("apikey", anonKey),
        ("Authorization", "Bearer " ++ anonKey), ("Prefer", "resolution=merge-duplicates")] ∧
      ∀ response, env.fetch request = .ok response →
        (registerAndSubscribePush env supabaseUrl anonKey userId).outcome
          = .ok { ok := true, reason := none } := by
  refine ⟨subscriptionRequest supabaseUrl anonKey
    { user_id := userId, endpoint := json.endpoint, p256dh := keys.p256dh,
      auth := keys.auth }, ?_, rfl, rfl, rfl, ?_⟩
  · rcases hsub with hsub | ⟨hsub, hkey, key, hdec, hsubscribe⟩
    · simp only [registerAndSubscribePush, tryBlock, Run.andThen, Run.perform, hsw, hpm, hpath,
        hreg, hsub, sendSubscription_run env sub supabaseUrl anonKey userId json keys hjson hkeys]
      cases env.fetch (subscriptionRequest supabaseUrl anonKey
        { user_id := userId, endpoint := json.endpoint, p256dh := keys.p256dh,
          auth := keys.auth }) <;> simp [fetchRequests]
    · simp only [registerAndSubscribePush, tryBlock, Run.andThen, Run.perform, hsw, hpm, hpath,
        hreg, hsub, hkey, hdec, hsubscribe,
        sendSubscription_run env sub supabaseUrl anonKey userId json keys hjson hkeys]
      cases env.fetch (subscriptionRequest supabaseUrl anonKey
        { user_id := userId, endpoint := json.endpoint, p256dh := keys.p256dh,
          auth := keys.auth }) <;> simp [fetchRequests]
  · intro response hresp
    rcases hsub with hsub | ⟨hsub, hkey, key, hdec, hsubscribe⟩
    · simp [registerAndSubscribePush, tryBlock, Run.andThen, Run.perform, hsw, hpm, hpath,
        hreg, hsub, sendSubscription_run env sub supabaseUrl anonKey userId json keys hjson hkeys,
        hresp]
    · simp [registerAndSubscribePush, tryBlock, Run.andThen, Run.perform, hsw, hpm, hpath,
        hreg, hsub, hkey, hdec, hsubscribe,
        sendSubscription_run env sub supabaseUrl anonKey userId json keys hjson hkeys, hresp]

/-- Witness for claim C6: a page that subscribes with the key `AQIDBA` and a backend
that answers with status 500. -/
theorem registerAndSubscribePush_post_witness :
    ∃ request,
      fetchRequests
        (registerAndSubscribePush freshEnvironment "https://db.example" "anon" "u1").trace
        = [request] ∧
      request.method = "POST" ∧
      request.url = "https://db.example" ++ "/rest/v1/push_subscriptions" ∧
      request.headers = [("Content-Type", "application/json"), ("apikey", "anon"),
        ("Authorization", "Bearer " ++ "anon"), ("Prefer", "resolution=merge-duplicates")] ∧
      ∀ response, freshEnvironment.fetch request = .ok response →
        (registerAndSubscribePush freshEnvironment "https://db.example" "anon" "u1").outcome
          = .ok { ok := true, reason := none } :=
  registerAndSubscribePush_post freshEnvironment "https://db.example" "anon" "u1"
    "/app/push-sw.js" sampleRegistration freshSubscription sampleJSON
    { p256dh := some "BPk", auth := some "aUth" } rfl rfl rfl rfl
    (Or.inr ⟨rfl, by decide, [1, 2, 3, 4], rfl, rfl⟩) rfl rfl

/-! ## The push listener -/

theorem orDefault_selects (field : Option String) (fallback : String) :
    Selects field fallback (orDefault field fallback) := by
  constructor
  · intro s hs hne
    subst hs
    simp [orDefault, hne]
  · rintro (h | h) <;> subst h <;> simp [orDefault]

/-- Claim C7, as the code has it: for every push event whose data is a JSON object
with optional string members `title`, `body`, `tag` and `url`, the listener requests
exactly one notification; its title, `options.body`, `options.tag` and
`options.data.url` each equal the member of the payload when that member is present
and not the empty string, and the fixed default when the member is missing or is
the empty string; an event without data gives the four defaults. -/
theorem onPush_field_selection (env : WorkerEnvironment) (p : PushPayload) :
    (∃ title options url,
      (onPush env { data := some { json := .ok p } }).shown = [(title, options)] ∧
      options.data.url = some url ∧
      Selects p.title "Todo Reminder" title ∧
      Selects p.body "Time to complete your todo!" options.body ∧
      Selects p.tag "todo-reminder" options.tag ∧
      Selects p.url "/" url) ∧
    (onPush env { data := none }).shown = [defaultNotification] := by
  constructor
  · refine ⟨orDefault p.title "Todo Reminder",
      { body := orDefault p.body "Time to complete your todo!"
        tag := orDefault p.tag "todo-reminder"
        data := { url := some (orDefault p.url "/") }
        icon := "icons/Icon-192.png"
        badge := "icons/Icon-192.png"
        vibrate := [120, 60, 120] }, orDefault p.url "/", ?_, rfl,
      orDefault_selects _ _, orDefault_selects _ _, orDefault_selects _ _,
      orDefault_selects _ _⟩
    simp only [onPush, pushTryBlock]
    split <;> rfl
  · simp only [onPush, pushTryBlock, orDefault, defaultNotification]
    split <;> rfl

/-- Counterexample to claim C7 as worded: a payload whose title is present and empty
is displayed under the default title, not under its own (empty) title. -/
theorem onPush_empty_title :
    (onPush displayingWorker { data := some { json := .ok emptyTitlePayload } }).shown
        ≠ [presentOrDefault emptyTitlePayload] ∧
      (onPush displayingWorker { data := some { json := .ok emptyTitlePayload } }).shown.map
        Prod.fst = ["Todo Reminder"] ∧
      (presentOrDefault emptyTitlePayload).1 = "" := by
  decide

/-- Claim C9: when the data of a push event does not parse (`json()` throws), the
listener completes without throwing and requests no notification. -/
theorem onPush_malformed (env : WorkerEnvironment) (e : JSError) :
    (onPush env { data := some { json := .error e } }).thrown = none ∧
      (onPush env { data := some { json := .error e } }).shown = [] ∧
      (onPush env { data := some { json := .error e } }).extended = [] := by
  simp [onPush, pushTryBlock]

/-- Claim C10, as the code has it: for every push event with well-formed data the
listener itself never throws and requests one notification; when `showNotification`
throws, the failure is swallowed, nothing is handed to `event.waitUntil` and the
lifetime promise of the event is fulfilled; when `showNotification` returns a promise,
that very promise is handed to `event.waitUntil`, so the lifetime promise of the event
is fulfilled exactly when that promise is, and a rejection is not swallowed. -/
theorem onPush_display_failure (env : WorkerEnvironment) (p : PushPayload) :
    (onPush env { data := some { json := .ok p } }).thrown = none ∧
    ∃ title options,
      (onPush env { data := some { json := .ok p } }).shown = [(title, options)] ∧
      (∀ e, env.showNotification title options = .throws e →
        (onPush env { data := some { json := .ok p } }).extended = [] ∧
        (onPush env { data := some { json := .ok p } }).lifetimeFulfilled = true) ∧
      (∀ settled, env.showNotification title options = .promise settled →
        (onPush env { data := some { json := .ok p } }).extended = [settled]) ∧
      (∀ e, env.showNotification title options = .promise (.error e) →
        (onPush env { data := some { json := .ok p } }).lifetimeFulfilled = false) := by
  refine ⟨rfl, orDefault p.title "Todo Reminder",
      { body := orDefault p.body "Time to complete your todo!"
        tag := orDefault p.tag "todo-reminder"
        data := { url := some (orDefault p.url "/") }
        icon := "icons/Icon-192.png"
        badge := "icons/Icon-192.png"
        vibrate := [120, 60, 120] }, ?_, ?_, ?_, ?_⟩
  · simp only [onPush, pushTryBlock]
    split <;> rfl
  · intro e he
    simp [onPush, pushTryBlock, he, ListenerRun.lifetimeFulfilled]
  · intro settled he
    simp [onPush, pushTryBlock, he]
  · intro e he
    simp [onPush, pushTryBlock, he, ListenerRun.lifetimeFulfilled]

/-- Counterexample to claim C10 as worded: when the promise of `showNotification` is
rejected, the listener has handed that rejected promise to `event.waitUntil`, and
the lifetime promise of the event is not fulfilled. -/
theorem onPush_rejection_not_swallowed :
    (onPush rejectingWorker { data := some { json := .ok fullPayload } }).extended
        = [.error permissionError] ∧
      (onPush rejectingWorker { data := some { json := .ok fullPayload } }).lifetimeFulfilled
        = false :=
  ⟨rfl, rfl⟩

/-! ## The click listener -/

/-- The lookup of the click listener returns the window clients, controlled or not. -/
theorem matchAll_windows (env : ClickEnvironment) :
    matchAll env true true = env.clients.filter (fun c => c.isWindow) := by
  unfold matchAll
  apply List.filter_congr
  intro c _
  simp

/-- Claim C8, as the code has it: for every notificationclick event the notification
is closed first and the window clients, uncontrolled ones included, are looked up;
the first client of that list that has a `focus` member is focused and no window is
opened; when no client of the list has one (in particular when the list is empty) and
`clients.openWindow` exists, one window is opened, at the URL attached to the
notification when that is a non-empty string and at `/` when the notification has no
data, no URL or an empty URL; when `clients.openWindow` does not exist, nothing more
is done. -/
theorem onNotificationClick_routing (env : ClickEnvironment)
    (notification : ClickedNotification) :
    ∃ rest, onNotificationClick env notification = .close :: .matchAll true true :: rest ∧
      (∀ pre client post, env.clients.filter (fun c => c.isWindow) = pre ++ client :: post →
        (∀ c ∈ pre, c.hasFocus = false) → client.hasFocus = true → rest = [.focus client]) ∧
      ((∀ c ∈ env.clients, c.isWindow = true → c.hasFocus = false) →
        (env.hasOpenWindow = true →
          ∃ url, rest = [.openWindow url] ∧
            Selects (notification.data.bind fun d => d.url) "/" url) ∧
        (env.hasOpenWindow = false → rest = [])) := by
  refine ⟨match (matchAll env true true).find? (fun client => client.hasFocus) with
    | some client => [.focus client]
    | none =>
      if env.hasOpenWindow then
        [.openWindow (orDefault (match notification.data with
          | some data => data.url
          | none => none) "/")]
      else [], rfl, ?_, ?_⟩
  · intro pre client post hlist hpre hclient
    have hfind : (matchAll env true true).find? (fun c => c.hasFocus) = some client := by
      rw [matchAll_windows, hlist, List.find?_append]
      have hnone : pre.find? (fun c => c.hasFocus) = none := by
        rw [List.find?_eq_none]
        intro c hc
        simp [hpre c hc]
      simp [hnone, hclient]
    simp only [hfind]
  · intro hall
    have hfind : (matchAll env true true).find? (fun c => c.hasFocus) = none := by
      rw [matchAll_windows, List.find?_eq_none]
      intro c hc
      have hc := List.mem_filter.mp hc
      simp [hall c hc.1 hc.2]
    simp only [hfind]
    constructor
    · intro hopen
      refine ⟨orDefault (match notification.data with
        | some data => data.url
        | none => none) "/", by simp only [hopen, if_true], ?_⟩
      cases notification.data with
      | none => exact orDefault_selects none "/"
      | some d => exact orDefault_selects d.url "/"
    · intro hopen
      simp [hopen]

/-- Counterexample to claim C8 as worded: without `clients.openWindow` an empty client
list opens no window; an attached URL that is the empty string opens `/`; and a first
window client without a `focus` member is passed over for the next one. -/
theorem onNotificationClick_guards :
    (onNotificationClick { clients := [], hasOpenWindow := false }
          { data := some { url := some "/y" } } = [.close, .matchAll true true] ∧
        firstClientOrOpen { clients := [], hasOpenWindow := false }
          { data := some { url := some "/y" } }
          = [.close, .matchAll true true, .openWindow "/y"]) ∧
      (onNotificationClick { clients := [], hasOpenWindow := true }
          { data := some { url := some "" } }
          = [.close, .matchAll true true, .openWindow "/"] ∧
        firstClientOrOpen { clients := [], hasOpenWindow := true }
          { data := some { url := some "" } }
          = [.close, .matchAll true true, .openWindow ""]) ∧
      (onNotificationClick { clients := [inertClient, openTab], hasOpenWindow := true }
          { data := none } = [.close, .matchAll true true, .focus openTab] ∧
        firstClientOrOpen { clients := [inertClient, openTab], hasOpenWindow := true }
          { data := none } = [.close, .matchAll true true, .focus inertClient]) := by
  decide

end TodoPush
